import Mathlib

/-!
Verification development for the cadastral parcel-resolution proxy
(`src/api/catastro-proxy.ts`, first revision of the module, lines 1-545).

The TypeScript handler is shallowly embedded as total Lean functions.
Conventions of the embedding:

* JSON positions that the code probes with `Array.isArray(x) ? ... : ...`
  are modelled with `ListOrSingle`.
* Optional / possibly-missing JSON keys are `Option` fields.  A JS value
  that is present-but-`null` is collapsed into `none`: for every place a
  claim depends on, the code treats `null` and missing keys alike
  (both are falsy and both stop `?.` chains).
* JS string truthiness (`""` and `null`/`undefined` are falsy) is
  `jsTruthy`.
* `Number(s)` conversions are modelled by the opaque wrapper `JsNum`:
  no claim inspects the numeric magnitude of a parsed distance, only its
  propagation, so the wrapper keeps the raw string.
* The network is an oracle (`Upstream`): one response for the exact-point
  distance query, one response per ring probe (indexed by radius and by
  the probe angle, which together determine the probed coordinate), and
  one response per detail query (indexed by the cadastral reference).
  A `fetch`/`text()` rejection is `Fetched.thrown`; an HTTP response with
  a non-JSON body is `Fetched.resp status none`.
* Probe angles are in units of pi/4: the source list
  `[0, PI/2, PI, 3*PI/2, PI/4, 3*PI/4, 5*PI/4, 7*PI/4]`
  becomes `[0, 2, 4, 6, 1, 3, 5, 7]`.
* JS `trim` is `jsTrim`, `includes` is `jsIncludes`; both are executable
  re-implementations over `List Char`.
-/

namespace CatastroProxy

/-- A payload position that may legally hold either a single record or a
list of records (`Array.isArray(x) ? ... : ...` in the source). -/
inductive ListOrSingle (α : Type) where
  | single : α → ListOrSingle α
  | list : List α → ListOrSingle α
deriving DecidableEq

/-- Normalization `Array.isArray(x) ? x : [x]` (exact stage `coordd` and
`lpcd`, lines 498 and 502, ring stage `lpcd`, line 363). -/
def ListOrSingle.asList {α : Type} : ListOrSingle α → List α
  | .single x => [x]
  | .list l => l

/-- Normalization `Array.isArray(x) ? x[0] : x` (ring stage `coordd`,
line 351, and `lerr.err`, lines 110 and 471).  `[] [0]` is `undefined`,
hence `none`. -/
def ListOrSingle.firstOf {α : Type} : ListOrSingle α → Option α
  | .single x => some x
  | .list l => l.head?

/-- JS truthiness of an optional string: `null`/`undefined` and the empty
string are falsy. -/
def jsTruthy (o : Option String) : Bool :=
  match o with
  | some s => s != ""
  | none => false

/-- Result of JS `Number(s)`, kept opaque: claims only track propagation
of the converted distance, never its magnitude. -/
structure JsNum where
  raw : String
deriving DecidableEq

/-- JS `x.dis ? Number(x.dis) : null` (lines 372 and 529). -/
def jsNumOpt (dis : Option String) : Option JsNum :=
  if jsTruthy dis then some ⟨dis.getD ""⟩ else none

/-- Whitespace test for `jsTrim` (the JS engine trims a superset of these
characters; only ASCII whitespace occurs in the modelled strings). -/
def wsChar (c : Char) : Bool := c.isWhitespace

/-- Trim a character list at the front and at the back. -/
def trimChars (l : List Char) : List Char :=
  ((l.dropWhile wsChar).reverse.dropWhile wsChar).reverse

/-- JS `String.prototype.trim`. -/
def jsTrim (s : String) : String := ⟨trimChars s.data⟩

/-- JS `String.prototype.includes`. -/
def jsIncludes (s sub : String) : Bool :=
  s.data.tails.any fun t => List.isPrefixOf sub.data t

/-- The message-accumulation pattern of the source
(`acc ? acc + '. ' + extra : extra`). -/
def appendMsg (acc extra : String) : String :=
  if acc = "" then extra else acc ++ ". " ++ extra

/-- The pair of reference components of a candidate record (`pc.pc1`,
`pc.pc2`). -/
structure PcRef where
  pc1 : Option String
  pc2 : Option String
deriving DecidableEq

/-- One candidate row of a distance-search answer (interface
`CatastroParcel` of the source; extra dynamic keys are not modelled). -/
structure CatastroParcel where
  pc : Option PcRef
  ldt : Option String
  dis : Option String
deriving DecidableEq

/-- One `coordd` container, holding the `lpcd` list-or-single of parcels. -/
structure CoorddItem where
  lpcd : Option (ListOrSingle CatastroParcel)
deriving DecidableEq

/-- The `coordenadas_distancias` wrapper. -/
structure CoordenadasDistancias where
  coordd : Option (ListOrSingle CoorddItem)
deriving DecidableEq

/-- One entry of the upstream error list `lerr.err`. -/
structure ErrDetail where
  des : Option String
  cod : Option String
deriving DecidableEq

/-- The `lerr` wrapper. -/
structure Lerr where
  err : Option (ListOrSingle ErrDetail)
deriving DecidableEq

/-- The `control` block carrying the upstream functional status code. -/
structure CtlBlock where
  cuerr : Option Int
deriving DecidableEq

/-- Body of a distance-search answer under its result key. -/
structure DistResult where
  control : Option CtlBlock
  coordenadas_distancias : Option CoordenadasDistancias
  lerr : Option Lerr
deriving DecidableEq

/-- A parsed distance-search response body. -/
structure DistPayload where
  Consulta_RCCOOR_DistanciaResult : Option DistResult
deriving DecidableEq

/-- Outcome of one `fetch`: a rejection of `fetch`/`text()` (caught by the
source's `try`), or an HTTP status plus the `JSON.parse` result of the
body (`none` models a parse failure). -/
inductive Fetched (α : Type) where
  | thrown : String → Fetched α
  | resp : Nat → Option α → Fetched α
deriving DecidableEq

/-- JS `Response.ok`: status in the range 200-299. -/
def okStatus (s : Nat) : Bool := 200 ≤ s && s ≤ 299

/-- The `debi` descriptive block of the rich detail shape. -/
structure Debi where
  luso : Option String
  sfc : Option String
  ant : Option String
  cpt : Option String
deriving DecidableEq

/-- Street-address fragments of the rich shape
(`dt.locs.lous.lourb.dir`). -/
structure DirRich where
  tv : Option String
  nv : Option String
  pnp : Option String
  plp : Option String
  td : Option String
deriving DecidableEq

/-- Internal-address fragments of the rich shape (`dt.locs.lous.loint`). -/
structure Loint where
  bq : Option String
  es : Option String
  pt : Option String
  pu : Option String
deriving DecidableEq

/-- The `lourb` wrapper of the rich shape. -/
structure Lourb where
  dir : Option DirRich
deriving DecidableEq

/-- The `lous` wrapper of the rich shape. -/
structure Lous where
  lourb : Option Lourb
  loint : Option Loint
deriving DecidableEq

/-- The `locs` wrapper of the rich shape. -/
structure Locs where
  lous : Option Lous
deriving DecidableEq

/-- The assessed-value block `vc` of the flat shape. -/
structure VcBlock where
  v : Option String
deriving DecidableEq

/-- The `dtcat` block of the flat shape. -/
structure Dtcat where
  ant : Option String
  vc : Option VcBlock
deriving DecidableEq

/-- Address fragments of the flat shape when `dirmun.dir` is an object. -/
structure DirFlat where
  tv : Option String
  nv : Option String
  pnp : Option String
  snp : Option String
  bq : Option String
  es : Option String
  pt : Option String
  pu : Option String
deriving DecidableEq

/-- `dirmun.dir` may be a bare string or a fragment object. -/
inductive DirMunDir where
  | strD : String → DirMunDir
  | objD : DirFlat → DirMunDir
deriving DecidableEq

/-- The `dirmun` block of the flat shape. -/
structure Dirmun where
  dir : Option DirMunDir
deriving DecidableEq

/-- The `dt` field of a building record: `dt.locs` in the rich shape,
`dt.luso` / `dt.sfc` in the flat shape (one JS field, two usages). -/
structure DtBlock where
  locs : Option Locs
  luso : Option String
  sfc : Option String
deriving DecidableEq

/-- A building record (`primerBienInmuebleDataForExtraction`). -/
structure Bien where
  debi : Option Debi
  dt : Option DtBlock
  dtcat : Option Dtcat
  dirmun : Option Dirmun
deriving DecidableEq

/-- The `lrcdnp` wrapper (rich list position, items used directly). -/
structure LrcdnpBlock where
  rcdnp : Option (ListOrSingle Bien)
deriving DecidableEq

/-- One item of the `lrcdnb.lrcdnb` list (details live under `.bi`). -/
structure LrcdnbItem where
  bi : Option Bien
deriving DecidableEq

/-- The `lrcdnb` wrapper. -/
structure LrcdnbBlock where
  lrcdnb : Option (ListOrSingle LrcdnbItem)
deriving DecidableEq

/-- Body of a detail answer under a result key (also the shape of the
whole document in the fallback that treats `detJson` itself as the
payload). -/
structure DetResult where
  control : Option CtlBlock
  lerr : Option Lerr
  lrcdnp : Option LrcdnpBlock
  lrcdnb : Option LrcdnbBlock
deriving DecidableEq

/-- A parsed detail response document.  `selfPayload` is the document
itself viewed as a payload, for the fallback of line 80 which checks
`detJson.lrcdnb || detJson.lrcdnp || detJson.control || detJson.lerr`. -/
structure DetJson where
  consulta_dnprcResult : Option DetResult
  Consulta_DNPRCResult : Option DetResult
  selfPayload : DetResult
  mensaje : Option String
deriving DecidableEq

/-- The extracted descriptive attributes (`datosDetallados`). -/
structure DatosDetallados where
  direccionCompleta : Option String
  usoPrincipal : Option String
  superficie : Option String
  antiguedad : Option String
  valorCatastral : Option String
deriving DecidableEq

/-- The response payload sent on every status-200 path (interface
`CatastroInfoDataForProxy` of the source). -/
structure CatastroInfoDataForProxy where
  referenciaOriginal : Option String
  direccionOriginalLDT : Option String
  distancia : Option JsNum
  datosDetallados : Option DatosDetallados
  message : Option String
deriving DecidableEq

/-- The behaviour of the upstream registry service during one request:
the exact-point distance response, the response of each ring probe
(a probe point is determined by its radius and angle), and the detail
response per cadastral reference. -/
structure Upstream where
  exactResp : Fetched DistPayload
  ringResp : Nat → Nat → Fetched DistPayload
  detailResp : String → Fetched DetJson

/-- Ring-search radii in meters (line 296). -/
def radios : List Nat := [5, 10, 25, 50, 100]

/-- Ring-search angles in units of pi/4 (line 297): the four cardinal
directions 0, PI/2, PI, 3*PI/2 first, then the diagonals PI/4, 3*PI/4,
5*PI/4, 7*PI/4. -/
def angulos : List Nat := [0, 2, 4, 6, 1, 3, 5, 7]

/-- Validity filter of the exact stage (line 504:
`parcel && parcel.pc && parcel.pc.pc1 && parcel.pc.pc2`). -/
def parcelValid (p : CatastroParcel) : Bool :=
  match p.pc with
  | some pcv => jsTruthy pcv.pc1 && jsTruthy pcv.pc2
  | none => false

/-- Reference concatenation (template literal of lines 371 and 528).
Call sites only use it on records that passed `parcelValid`. -/
def refCatOf (p : CatastroParcel) : String :=
  match p.pc with
  | some pcv => pcv.pc1.getD "" ++ pcv.pc2.getD ""
  | none => ""

/-- Raw flattening of a `coordd` container, before the validity filter:
every record of every item's `lpcd`, in upstream order. -/
def rawParcels (c : ListOrSingle CoorddItem) : List CatastroParcel :=
  c.asList.flatMap fun item =>
    match item.lpcd with
    | some l => l.asList
    | none => []

/-- The flattened, filtered candidate list of the exact stage
(`todasParcels`, lines 497-509). -/
def todasParcels (c : ListOrSingle CoorddItem) : List CatastroParcel :=
  c.asList.flatMap fun item =>
    match item.lpcd with
    | some l => l.asList.filter parcelValid
    | none => []

/-- A hit of one ring probe, before the radius is attached. -/
structure RingHit where
  refCat : String
  ldt : Option String
  dis : Option JsNum
deriving DecidableEq

/-- Outcome of the ring search: the reported candidate together with the
radius at which the probe succeeded. -/
structure RingFound where
  refCat : String
  ldt : Option String
  dis : Option JsNum
  radius : Nat
deriving DecidableEq

/-- Navigation of one ring-probe response down to `targetParcelRing`
(lines 319-369): 404, non-ok status, parse failure, `cuerr` not exactly
0, a missing key anywhere on the path, or an empty list are all misses
(`continue`). -/
def ringHeadParcel (f : Fetched DistPayload) : Option CatastroParcel :=
  match f with
  | .thrown _ => none
  | .resp status body =>
    if status == 404 then none
    else if !(okStatus status) then none
    else
      match body with
      | none => none
      | some dj =>
        match dj.Consulta_RCCOOR_DistanciaResult with
        | none => none
        | some res =>
          if (res.control >>= (·.cuerr)) == some 0 then
            match res.coordenadas_distancias >>= (·.coordd) with
            | none => none
            | some coorddLS =>
              match coorddLS.firstOf with
              | none => none
              | some firstC =>
                match firstC.lpcd with
                | none => none
                | some lpcdLS =>
                  match lpcdLS.asList with
                  | [] => none
                  | target :: _ => some target
          else none

/-- Processing of one ring-probe response (lines 319-398): on the head
parcel of a successful navigation, the reference-component check of line
370 either builds the hit or skips the probe entirely. -/
def ringEval (f : Fetched DistPayload) : Option RingHit :=
  match ringHeadParcel f with
  | none => none
  | some target =>
    if parcelValid target then
      some ⟨refCatOf target, target.ldt, jsNumOpt target.dis⟩
    else none

/-- One probe of the ring search at radius `r` and angle `a`. -/
def ringStep (up : Upstream) (r a : Nat) : Option RingFound :=
  (ringEval (up.ringResp r a)).map fun h => ⟨h.refCat, h.ldt, h.dis, r⟩

/-- Inner loop of `buscarPorAnillos`: scan the angles at a fixed radius,
stopping at the first hit; also counts the probes issued. -/
def searchAngles (up : Upstream) (r : Nat) : List Nat → Option RingFound × Nat
  | [] => (none, 0)
  | a :: as =>
    match ringStep up r a with
    | some f => (some f, 1)
    | none =>
      let rest := searchAngles up r as
      (rest.1, rest.2 + 1)

/-- Outer loop of `buscarPorAnillos`: radii in the listed (ascending)
order; also counts the probes issued. -/
def searchRadii (up : Upstream) : List Nat → Option RingFound × Nat
  | [] => (none, 0)
  | r :: rs =>
    match searchAngles up r angulos with
    | (some f, n) => (some f, n)
    | (none, n) =>
      let rest := searchRadii up rs
      (rest.1, n + rest.2)

/-- The ring search over the full radius and angle lattice
(`buscarPorAnillos`, lines 290-403), returning the first hit in scan
order, if any, and the number of probes issued. -/
def buscarPorAnillos (up : Upstream) : Option RingFound × Nat :=
  searchRadii up radios

/-- The five extraction variables of lines 159-163 (JS `null` is `none`,
an assigned empty string is `some ""`). -/
structure ExtractVars where
  direccion : Option String
  uso : Option String
  superficie : Option String
  antiguedad : Option String
  valor : Option String
deriving DecidableEq

/-- Conditional push of an address fragment (`if (x) parts.push(f(x))`). -/
def optPart (o : Option String) (f : String → String) : List String :=
  if jsTruthy o then [f (o.getD "")] else []

/-- Dispatch condition of the rich shape (line 166:
`primerBien.debi && primerBien.dt?.locs`). -/
def richCond (b : Bien) : Bool :=
  b.debi.isSome && (b.dt >>= (·.locs)).isSome

/-- Dispatch condition of the flat shape (line 213:
`primerBien.dtcat || primerBien.dirmun`). -/
def flatCond (b : Bien) : Bool :=
  b.dtcat.isSome || b.dirmun.isSome

/-- Extraction under the rich `debi`/`dt.locs` shape (lines 166-210). -/
def extractRichVars (b : Bien) (direccionLDT : Option String) : ExtractVars :=
  let dirObj := (b.dt >>= (·.locs)) >>= (·.lous) >>= (·.lourb) >>= (·.dir)
  let lointObj := (b.dt >>= (·.locs)) >>= (·.lous) >>= (·.loint)
  let streetParts :=
    match dirObj with
    | none => []
    | some d =>
      optPart d.tv id ++ optPart d.nv id ++
      optPart d.pnp (fun s => "Nº " ++ s) ++ optPart d.plp id
  let fs0 := jsTrim (String.intercalate " " streetParts)
  let fullStreet :=
    match dirObj with
    | some d =>
      if jsTruthy d.td && !(jsIncludes fs0 (d.td.getD "")) then
        jsTrim (fs0 ++ " " ++ d.td.getD "")
      else fs0
    | none => fs0
  let internalParts :=
    match lointObj with
    | none => []
    | some l =>
      optPart l.bq (fun s => "Blq. " ++ s) ++
      optPart l.es (fun s => "Esc. " ++ s) ++
      optPart l.pt (fun s => "Pl. " ++ s) ++
      optPart l.pu (fun s => "Pta. " ++ s)
  let fullInternal := jsTrim (String.intercalate ", " internalParts)
  let dire0 :=
    jsTrim (String.intercalate ", " (([fullStreet, fullInternal]).filter (· != "")))
  let direccion : Option String :=
    if dire0 != "" then some dire0
    else if jsTruthy direccionLDT then direccionLDT
    else if jsTruthy (dirObj >>= (·.nv)) then dirObj >>= (·.nv)
    else some dire0
  let luso := b.debi >>= (·.luso)
  let sfc := b.debi >>= (·.sfc)
  let ant := b.debi >>= (·.ant)
  let cpt := b.debi >>= (·.cpt)
  { direccion := direccion
  , uso := if jsTruthy luso then luso else none
  , superficie := if jsTruthy sfc then sfc else none
  , antiguedad := if jsTruthy ant then ant else none
  , valor := if jsTruthy cpt then cpt else none }

/-- Extraction under the older flat `dtcat`/`dirmun` shape
(lines 213-236). -/
def extractFlatVars (b : Bien) (direccionLDT : Option String) : ExtractVars :=
  let dire0 : Option String :=
    match b.dirmun >>= (·.dir) with
    | some (.strD s) => some (jsTrim s)
    | some (.objD d) =>
      if d.nv.isSome then
        let parts : List (Option String) :=
          [d.tv, d.nv,
           if jsTruthy d.pnp then some ("Nº " ++ d.pnp.getD "") else none,
           if jsTruthy d.snp then some ("-" ++ d.snp.getD "") else none,
           d.bq, d.es, d.pt, d.pu]
        let kept := parts.filter fun o => o.isSome && jsTrim (o.getD "") != ""
        let joined := jsTrim (String.intercalate " " (kept.map (·.getD "")))
        if joined != "" then some joined else none
      else none
    | none => none
  let direccion :=
    if !(jsTruthy dire0) && jsTruthy direccionLDT then direccionLDT else dire0
  let luso := b.dt >>= (·.luso)
  let sfc := b.dt >>= (·.sfc)
  let ant := b.dtcat >>= (·.ant)
  let vcv := b.dtcat >>= (·.vc) >>= (·.v)
  { direccion := direccion
  , uso := if jsTruthy luso then luso else none
  , superficie := if jsTruthy sfc then sfc else none
  , antiguedad := if jsTruthy ant then ant else none
  , valor := if jsTruthy vcv then vcv else none }

/-- All-null extraction variables (the branch of line 237 assigns
nothing). -/
def emptyVars : ExtractVars := ⟨none, none, none, none, none⟩

/-- Truthiness test of line 243 over the five extraction variables. -/
def anyTruthy (v : ExtractVars) : Bool :=
  jsTruthy v.direccion || jsTruthy v.uso || jsTruthy v.superficie ||
  jsTruthy v.antiguedad || jsTruthy v.valor

/-- Assembly of `datosDetalladosObject` (lines 244-250). -/
def varsToDatos (v : ExtractVars) : DatosDetallados :=
  ⟨v.direccion, v.uso, v.superficie, v.antiguedad, v.valor⟩

/-- Message of the branch of line 239. -/
def msgNoCoincide : String :=
  "La estructura de datos del inmueble no coincide con los formatos esperados para extraer detalles."

/-- Message of line 252. -/
def msgDetailsFound : String :=
  "Bien inmueble encontrado y detalles procesados."

/-- Message of line 255. -/
def msgNoExtra : String :=
  "Bien inmueble localizado, pero no se pudieron extraer detalles adicionales específicos (uso, superficie, etc.) de la estructura recibida."

/-- Message of line 261. -/
def msgNoBien : String :=
  "No se encontró una estructura de datos de inmueble reconocible en la respuesta de Catastro para extraer detalles."

/-- The final any-truthy check and message of lines 243-258, applied to
the extraction variables of whichever branch ran. -/
def extractFinish (v : ExtractVars) (acc : String) :
    Option DatosDetallados × String :=
  if anyTruthy v then
    (some (varsToDatos v), appendMsg acc msgDetailsFound)
  else
    (none, appendMsg acc msgNoExtra)

/-- The inline extraction flow of lines 129-264: shape dispatch, the five
variables, the final any-truthy check, and the accumulated message. -/
def extractInline (bienOpt : Option Bien) (direccionLDT : Option String)
    (acc0 : String) : Option DatosDetallados × String :=
  match bienOpt with
  | none => (none, appendMsg acc0 msgNoBien)
  | some b =>
    if richCond b then
      extractFinish (extractRichVars b direccionLDT) acc0
    else if flatCond b then
      extractFinish (extractFlatVars b direccionLDT) acc0
    else
      extractFinish emptyVars (appendMsg acc0 msgNoCoincide)

/-- Selection of `primerBienInmuebleDataForExtraction` (lines 131-153):
the `lrcdnp.rcdnp` path requires an actual array and uses its first item
directly; the `lrcdnb.lrcdnb` fallback requires an actual array and uses
the first item's `.bi`. -/
def pickBien (p : DetResult) : Option Bien :=
  match p.lrcdnp >>= (·.rcdnp) with
  | some (.list bs) => bs.head?
  | _ =>
    match p.lrcdnb >>= (·.lrcdnb) with
    | some (.list items) => items.head? >>= (·.bi)
    | _ => none

/-- Marker test of the fallback of line 80
(`detJson.lrcdnb || detJson.lrcdnp || detJson.control || detJson.lerr`). -/
def detSelfMarkers (r : DetResult) : Bool :=
  r.lrcdnb.isSome || r.lrcdnp.isSome || r.control.isSome || r.lerr.isSome

/-- Selection of `detResultPayload` (lines 72-83): the lowercase result
key first, then the uppercase one, then the document itself when it
carries payload markers. -/
def selectDetPayload (dj : DetJson) : Option DetResult :=
  match dj.consulta_dnprcResult with
  | some r => some r
  | none =>
    match dj.Consulta_DNPRCResult with
    | some r => some r
    | none =>
      if detSelfMarkers dj.selfPayload then some dj.selfPayload else none

/-- Default text of the unrecognized-structure branch (line 87). -/
def defaultUnrecognized : String :=
  "Respuesta del servicio de detalles del Catastro no reconocida o vacía."

/-- The `messageForClient` of lines 87-92: a present `mensaje` string
wins (even empty), else a truthy `lerr.err.des` accessed directly on the
err object, else the default text. -/
def unrecognizedMsg (dj : DetJson) : String :=
  match dj.mensaje with
  | some m => m
  | none =>
    match dj.selfPayload.lerr >>= (·.err) with
    | some (.single e) =>
      if jsTruthy e.des then e.des.getD "" else defaultUnrecognized
    | _ => defaultUnrecognized

/-- Detail-stage functional-error test (line 106:
`control?.cuerr > 0 && cuerr !== 168`). -/
def cuerrDetailErr (p : DetResult) : Bool :=
  match p.control >>= (·.cuerr) with
  | some c => decide (0 < c) && c != 168
  | none => false

/-- Exact-stage functional-error test (line 467:
`distResult?.control?.cuerr > 0`). -/
def cuerrPosExact (r : Option DistResult) : Bool :=
  match r >>= (·.control) >>= (·.cuerr) with
  | some c => decide (0 < c)
  | none => false

/-- JS `cuerr || fallback` over the optional numeric status code. -/
def numOrDefault (c : Option Int) (dflt : String) : String :=
  match c with
  | some v => if v != 0 then toString v else dflt
  | none => dflt

/-- Model text of the TypeError raised when the source reads `.des` of
`undefined` (an empty `lerr.err` array after the array-or-single first
step); the concrete JS engine text is irrelevant to every claim. -/
def typeErrorMsg : String :=
  "Cannot read properties of undefined (reading des)"

/-- The `errDetails` refinement of an error message and code from
`lerr.err` (lines 109-112 and 470-473).  An empty `err` array makes the
source read `.des` of `undefined`: a thrown TypeError. -/
def lerrText (errOpt : Option (ListOrSingle ErrDetail))
    (msg0 code0 : String) : Except String (String × String) :=
  match errOpt with
  | none => .ok (msg0, code0)
  | some ls =>
    match ls.firstOf with
    | none => .error typeErrorMsg
    | some e =>
      .ok (if jsTruthy e.des then jsTrim (e.des.getD "") else msg0,
           if jsTruthy e.cod then e.cod.getD "" else code0)

/-- The exact-stage error message of lines 467-479. -/
def initialErrorMessage (r : Option DistResult) : Except String String :=
  match lerrText (r >>= (·.lerr) >>= (·.err))
      ("Error en servicio de distancia del Catastro.")
      (numOrDefault (r >>= (·.control) >>= (·.cuerr)) ("N/A")) with
  | .error e => .error e
  | .ok mc =>
    .ok ("Error al consultar parcelas cercanas (inicial): " ++ mc.1 ++
         " (Código: " ++ mc.2 ++ ")")

/-- The detail-stage error message of lines 106-117. -/
def detailErrorMessage (p : DetResult) (refCat : String) :
    Except String String :=
  match lerrText (p.lerr >>= (·.err))
      ("Error al obtener detalles de la finca desde Catastro.")
      (numOrDefault (p.control >>= (·.cuerr)) ("N/A")) with
  | .error e => .error e
  | .ok mc =>
    .ok ("Fallo al obtener detalles para " ++ refCat ++ ": " ++ mc.1 ++
         " (Código: " ++ mc.2 ++ ")")

/-- Parse-failure message of the detail stage (line 59). -/
def parseErrorDetMsg : String :=
  "Error al interpretar la respuesta detallada del Catastro (no es JSON válido)."

/-- The caught-exception message of lines 276-278. -/
def criticoMsg (refCat emsg : String) (ctx : Option String) : String :=
  appendMsg (ctx.getD "")
    ("Error crítico al procesar detalles para " ++ refCat ++ ": " ++ emsg)

/-- Processing of a parsed detail document (lines 72-272).  The
`Except.error` case is a JS exception inside the processing, caught by
the function's own `catch`. -/
def detailBody (dj : DetJson) (refCat : String) (direccionLDT : Option String)
    (distancia : Option JsNum) (ctx : Option String) :
    Except String CatastroInfoDataForProxy :=
  match selectDetPayload dj with
  | none =>
    .ok ⟨some refCat, direccionLDT, distancia, none,
         some (appendMsg (ctx.getD "") (unrecognizedMsg dj))⟩
  | some payload =>
    if cuerrDetailErr payload then
      match detailErrorMessage payload refCat with
      | .error e => .error e
      | .ok em =>
        .ok ⟨some refCat, direccionLDT, distancia, none,
             some (appendMsg (ctx.getD "") em)⟩
    else
      let r := extractInline (pickBien payload) direccionLDT (ctx.getD "")
      let t := jsTrim r.2
      .ok ⟨some refCat, direccionLDT, distancia, r.1,
           if t != "" then some t else none⟩

/-- The detail-fetch stage (`fetchParcelDetailsAndRespond`, lines
30-288).  It always responds with a status-200 payload: its own `catch`
absorbs rejected fetches and every processing exception. -/
def fetchParcelDetailsAndRespond (up : Upstream) (refCat : String)
    (direccionLDT : Option String) (distancia : Option JsNum)
    (contextMessage : Option String) : CatastroInfoDataForProxy :=
  match up.detailResp refCat with
  | .thrown emsg =>
    ⟨some refCat, direccionLDT, distancia, none,
     some (criticoMsg refCat emsg contextMessage)⟩
  | .resp _ none =>
    ⟨some refCat, direccionLDT, distancia, none,
     some (appendMsg (contextMessage.getD "") parseErrorDetMsg)⟩
  | .resp _ (some dj) =>
    match detailBody dj refCat direccionLDT distancia contextMessage with
    | .ok out => out
    | .error emsg =>
      ⟨some refCat, direccionLDT, distancia, none,
       some (criticoMsg refCat emsg contextMessage)⟩

/-- Ring-search context message (line 376). -/
def ringMsg (r : Nat) : String :=
  "Parcela encontrada mediante búsqueda expandida (radio " ++ toString r ++ "m)."

/-- Exact-stage context message (line 533). -/
def msgInicialCtx : String :=
  "Parcela encontrada en la búsqueda inicial (primera válida de la lista completa)."

/-- Message of line 447 (initial 404, ring search exhausted). -/
def msg404 : String :=
  "No se encontró ninguna parcela catastral en la ubicación proporcionada (búsqueda inicial 404) ni en un radio de hasta 100 metros."

/-- Message of line 460 (initial body is not valid JSON). -/
def msgParseInicial : String :=
  "Error al interpretar la respuesta inicial del Catastro (no es JSON válido)."

/-- Message of line 491 (no `coordd`, ring search exhausted). -/
def msgSinCoordd : String :=
  "Respuesta inesperada del Catastro (faltan datos de coordenadas), y búsqueda por anillos no encontró resultados."

/-- Message of line 520 (no valid parcel, ring search exhausted). -/
def msgSinValidas : String :=
  "No se encontró ninguna parcela catastral válida en la ubicación proporcionada ni en un radio de hasta 100 metros (búsqueda inicial y expandida)."

/-- An all-null outcome carrying only a diagnostic message. -/
def nullOutcome (m : String) : CatastroInfoDataForProxy :=
  ⟨none, none, none, none, some m⟩

/-- A field of the JS request body, as far as the validation of line 417
observes it. -/
inductive JsValue where
  | num : JsNum → JsValue
  | str : String → JsValue
  | undef : JsValue
  | other : JsValue
deriving DecidableEq

/-- The destructured request body `{ utmX, utmY, srs }`. -/
structure ReqBody where
  utmX : JsValue
  utmY : JsValue
  srs : JsValue
deriving DecidableEq

/-- The inbound request, as far as the handler observes it. -/
structure Request where
  method : String
  body : ReqBody
deriving DecidableEq

/-- JS `typeof x === "number"`. -/
def isNumV : JsValue → Bool
  | .num _ => true
  | _ => false

/-- JS `typeof x === "string"`. -/
def isStrV : JsValue → Bool
  | .str _ => true
  | _ => false

/-- The input validation of line 417. -/
def validBody (b : ReqBody) : Bool :=
  isNumV b.utmX && isNumV b.utmY && isStrV b.srs

/-- A request that passes the method check and the input validation. -/
def validPost (req : Request) : Bool :=
  req.method == "POST" && validBody req.body

/-- The response the handler sends: 405, 400, a status-200
`CatastroInfoDataForProxy`, or the 500 of the outer `catch`. -/
inductive ApiResponse where
  | methodNotAllowed : ApiResponse
  | badRequest : ApiResponse
  | outcome : CatastroInfoDataForProxy → ApiResponse
  | internalError : ApiResponse
deriving DecidableEq

/-- Observable result of one handler run: the single response sent, the
number of upstream calls issued, and whether `buscarPorAnillos` was
invoked. -/
structure HandlerOut where
  resp : ApiResponse
  calls : Nat
  ringInvoked : Bool
deriving DecidableEq

/-- Ring-search fallback as the handler uses it: on a hit, the detail
fetch runs with the ring context message (lines 378-384); the probe
count plus the one detail call is returned alongside. -/
def runRing (up : Upstream) : Option CatastroInfoDataForProxy × Nat :=
  match buscarPorAnillos up with
  | (some f, n) =>
    (some (fetchParcelDetailsAndRespond up f.refCat f.ldt f.dis
            (some (ringMsg f.radius))), n + 1)
  | (none, n) => (none, n)

/-- The resolution flow after validation (lines 422-544).  The
`internalError` results are the exceptions that reach the outer `catch`:
a rejected exact-point fetch, and the TypeError of an empty `lerr.err`
array inside the exact-stage error branch. -/
def handlerCore (up : Upstream) : HandlerOut :=
  match up.exactResp with
  | .thrown _ => ⟨.internalError, 1, false⟩
  | .resp status body =>
    if status == 404 then
      match runRing up with
      | (some out, n) => ⟨.outcome out, 1 + n, true⟩
      | (none, n) => ⟨.outcome (nullOutcome msg404), 1 + n, true⟩
    else
      match body with
      | none => ⟨.outcome (nullOutcome msgParseInicial), 1, false⟩
      | some dj =>
        if !(okStatus status) || cuerrPosExact dj.Consulta_RCCOOR_DistanciaResult then
          match initialErrorMessage dj.Consulta_RCCOOR_DistanciaResult with
          | .error _ => ⟨.internalError, 1, false⟩
          | .ok m => ⟨.outcome (nullOutcome m), 1, false⟩
        else
          match dj.Consulta_RCCOOR_DistanciaResult >>= (·.coordenadas_distancias) >>= (·.coordd) with
          | none =>
            match runRing up with
            | (some out, n) => ⟨.outcome out, 1 + n, true⟩
            | (none, n) => ⟨.outcome (nullOutcome msgSinCoordd), 1 + n, true⟩
          | some coorddList =>
            match todasParcels coorddList with
            | [] =>
              match runRing up with
              | (some out, n) => ⟨.outcome out, 1 + n, true⟩
              | (none, n) => ⟨.outcome (nullOutcome msgSinValidas), 1 + n, true⟩
            | p :: _ =>
              ⟨.outcome (fetchParcelDetailsAndRespond up (refCatOf p) p.ldt
                  (jsNumOpt p.dis) (some msgInicialCtx)), 2, false⟩

/-- The exported request handler (lines 406-545): method check, input
validation, then the resolution flow. -/
def handler (req : Request) (up : Upstream) : HandlerOut :=
  if req.method != "POST" then ⟨.methodNotAllowed, 0, false⟩
  else if !(validBody req.body) then ⟨.badRequest, 0, false⟩
  else handlerCore up

/-- The exact-stage outcomes after which the source invokes
`buscarPorAnillos`: an initial 404, a missing `coordd` container, or a
candidate list that is empty after filtering.  Upstream functional
errors, non-ok statuses and parse failures respond directly instead. -/
def exactStageTriggersRing (up : Upstream) : Bool :=
  match up.exactResp with
  | .thrown _ => false
  | .resp status body =>
    if status == 404 then true
    else
      match body with
      | none => false
      | some dj =>
        if !(okStatus status) || cuerrPosExact dj.Consulta_RCCOOR_DistanciaResult then false
        else
          match dj.Consulta_RCCOOR_DistanciaResult >>= (·.coordenadas_distancias) >>= (·.coordd) with
          | none => true
          | some coorddList => todasParcels coorddList == []

/-- The conditions under which an exception reaches the handler's outer
`catch` (the only source of a hard 500 failure): a rejected exact-point
fetch, or the TypeError of reading `.des` of `undefined` when the
exact-stage error branch meets an empty `lerr.err` array. -/
def handlerFault (up : Upstream) : Bool :=
  match up.exactResp with
  | .thrown _ => true
  | .resp status body =>
    if status == 404 then false
    else
      match body with
      | none => false
      | some dj =>
        if !(okStatus status) || cuerrPosExact dj.Consulta_RCCOOR_DistanciaResult then
          match dj.Consulta_RCCOOR_DistanciaResult >>= (·.lerr) >>= (·.err) with
          | some (.list []) => true
          | _ => false
        else false

/-- Whole-shape extraction attempt of the rich shape: its five fields,
kept only when at least one of them is truthy. -/
def richWhole (b : Bien) (direccionLDT : Option String) :
    Option DatosDetallados :=
  let v := extractRichVars b direccionLDT
  if anyTruthy v then some (varsToDatos v) else none

/-- Whole-shape extraction attempt of the flat shape: its five fields,
kept only when at least one of them is truthy. -/
def flatWhole (b : Bien) (direccionLDT : Option String) :
    Option DatosDetallados :=
  let v := extractFlatVars b direccionLDT
  if anyTruthy v then some (varsToDatos v) else none

/-- The shape dispatch the source actually performs: the structural
markers select exactly one shape, whose whole extraction (if any field is
truthy) becomes the detail. -/
def dispatchDetail (b : Bien) (direccionLDT : Option String) :
    Option DatosDetallados :=
  if richCond b then richWhole b direccionLDT
  else if flatCond b then flatWhole b direccionLDT
  else none

/-- Modelled from the spec: the detail-selection rule as the spec words
it ("the first shape that yields at least one non-null field wins") —
try the rich shape as a whole, and if it yields no field, try the flat
shape as a whole.  Kept separate from the source-derived `dispatchDetail`
to compare the two rules. -/
def specFirstYieldingShapeDetail (b : Bien) (direccionLDT : Option String) :
    Option DatosDetallados :=
  match richWhole b direccionLDT with
  | some d => some d
  | none => flatWhole b direccionLDT

/-- Concrete candidate record with both reference components. -/
def parcelA : CatastroParcel :=
  ⟨some ⟨some ("1234567"), some ("AB1234")⟩, some ("CALLE MAYOR 5"), some ("4.2")⟩

/-- Concrete distance answer containing `parcelA`. -/
def foundDistPayload : DistPayload :=
  ⟨some ⟨some ⟨some 0⟩, some ⟨some (.single ⟨some (.single parcelA)⟩)⟩, none⟩⟩

/-- A detail payload with no fields at all. -/
def detResEmpty : DetResult := ⟨none, none, none, none⟩

/-- Concrete building record in the rich shape. -/
def bienRich : Bien :=
  ⟨some ⟨some ("Residential"), some ("100"), none, none⟩,
   some ⟨some ⟨some ⟨some ⟨some ⟨some ("CL"), some ("MAYOR"), some ("5"), none, none⟩⟩,
     none⟩⟩, none, none⟩,
   none, none⟩

/-- Concrete detail document in the rich shape. -/
def detJsonRich : DetJson :=
  ⟨some ⟨some ⟨some 0⟩, none, some ⟨some (.list [bienRich])⟩, none⟩, none,
   detResEmpty, none⟩

/-- Concrete detail document reporting functional error 13. -/
def detJsonErr : DetJson :=
  ⟨some ⟨some ⟨some 13⟩, some ⟨some (.single ⟨some ("SIN DATOS"), some ("13")⟩)⟩,
     none, none⟩, none, detResEmpty, none⟩

/-- A valid POST request. -/
def reqW : Request :=
  ⟨"POST", ⟨.num ⟨"440000"⟩, .num ⟨"4470000"⟩, .str ("EPSG:25830")⟩⟩

/-- Oracle: the exact-point query finds `parcelA`, the detail query
answers in the rich shape. -/
def upFound : Upstream :=
  { exactResp := .resp 200 (some foundDistPayload)
  , ringResp := fun _ _ => .resp 404 none
  , detailResp := fun _ => .resp 200 (some detJsonRich) }

/-- Oracle: the exact-point query is a 404; every ring probe misses
except radius 25 at the angles pi (cardinal, position 2 of the scan
order) and pi/4 (diagonal, position 4); the detail fetch rejects. -/
def upRing : Upstream :=
  { exactResp := .resp 404 none
  , ringResp := fun r a =>
      if r == 25 && (a == 4 || a == 1) then .resp 200 (some foundDistPayload)
      else .resp 404 none
  , detailResp := fun _ => .thrown ("network down") }

/-- The hit `upRing` produces. -/
def ringFoundW : RingFound :=
  ⟨"1234567AB1234", some ("CALLE MAYOR 5"), some ⟨"4.2"⟩, 25⟩

/-- Oracle whose exact-point answer reports functional error code 5
(an upstream functional error, not a found candidate). -/
def upC1 : Upstream :=
  { exactResp := .resp 200 (some ⟨some ⟨some ⟨some 5⟩, none, none⟩⟩)
  , ringResp := fun _ _ => .resp 404 none
  , detailResp := fun _ => .resp 404 none }

/-- Oracle whose detail answer is `detJsonErr`. -/
def upDetErr : Upstream :=
  { exactResp := .resp 404 none
  , ringResp := fun _ _ => .resp 404 none
  , detailResp := fun _ => .resp 200 (some detJsonErr) }

/-- Building record carrying the rich markers (`debi` present, `dt.locs`
present) but no extractable rich field, together with a flat-shape
`dtcat.ant` that the flat extraction would yield. -/
def bienC5 : Bien :=
  ⟨some ⟨none, none, none, none⟩, some ⟨some ⟨none⟩, none, none⟩,
   some ⟨some ("1990"), none⟩, none⟩

/-- Detail payload whose property list holds `bienC5`. -/
def payloadC5 : DetResult :=
  ⟨some ⟨some 0⟩, none, some ⟨some (.list [bienC5])⟩, none⟩

/-- Detail document wrapping `payloadC5`. -/
def detJsonC5 : DetJson := ⟨some payloadC5, none, detResEmpty, none⟩

/-- Oracle whose detail answer is `detJsonC5`. -/
def upC5 : Upstream :=
  { exactResp := .resp 404 none
  , ringResp := fun _ _ => .resp 404 none
  , detailResp := fun _ => .resp 200 (some detJsonC5) }

/-- The detail-stage failures named by the spec: a rejected fetch, a
non-JSON body, or a selected payload reporting a functional error. -/
def detailFailure (up : Upstream) (refCat : String) : Bool :=
  match up.detailResp refCat with
  | .thrown _ => true
  | .resp _ none => true
  | .resp _ (some dj) =>
    match selectDetPayload dj with
    | some payload => cuerrDetailErr payload
    | none => false

theorem jsTrim_eq_empty_all_ws {s : String} (h : jsTrim s = "") :
    ∀ c ∈ s.data, wsChar c = true := by
  intro c hc
  have hmk : trimChars s.data = [] := by
    have h2 := congrArg String.data h
    simpa [jsTrim] using h2
  unfold trimChars at hmk
  rw [List.reverse_eq_nil_iff, List.dropWhile_eq_nil_iff] at hmk
  have h1 : ∀ x ∈ s.data.dropWhile wsChar, wsChar x = true := by
    intro x hx
    exact hmk x (by simpa using hx)
  rw [← List.takeWhile_append_dropWhile wsChar s.data] at hc
  rcases List.mem_append.mp hc with h2 | h2
  · exact List.mem_takeWhile_imp h2
  · exact h1 c h2

theorem jsTrim_ne_empty {s : String} (h : ∃ c ∈ s.data, wsChar c = false) :
    jsTrim s ≠ "" := by
  intro he
  obtain ⟨c, hc, hw⟩ := h
  have := jsTrim_eq_empty_all_ws he c hc
  rw [this] at hw
  exact absurd hw (by simp)

theorem mem_appendMsg {acc e : String} {c : Char} (hc : c ∈ e.data) :
    c ∈ (appendMsg acc e).data := by
  unfold appendMsg
  split
  · exact hc
  · rw [String.data_append, String.data_append]
    simp [hc]

theorem jsTrim_appendMsg_ne (acc : String) {e : String}
    (h : ∃ c ∈ e.data, wsChar c = false) : jsTrim (appendMsg acc e) ≠ "" := by
  apply jsTrim_ne_empty
  obtain ⟨c, hc, hw⟩ := h
  exact ⟨c, mem_appendMsg hc, hw⟩

theorem append_ne_of_left {s : String} (h : s ≠ "") (t : String) :
    s ++ t ≠ "" := by
  intro he
  have hd := congrArg String.data he
  rw [String.data_append] at hd
  have : s.data = [] := (List.append_eq_nil.mp hd).1
  apply h
  cases s
  simp_all

theorem append_ne_of_right (s : String) {t : String} (h : t ≠ "") :
    s ++ t ≠ "" := by
  intro he
  have hd := congrArg String.data he
  rw [String.data_append] at hd
  have : t.data = [] := (List.append_eq_nil.mp hd).2
  apply h
  cases t
  simp_all

theorem appendMsg_ne (acc : String) {e : String} (h : e ≠ "") :
    appendMsg acc e ≠ "" := by
  unfold appendMsg
  split
  · exact h
  · exact append_ne_of_right _ h

theorem appendMsg_of_truthy {acc : String} (h : acc ≠ "") (e : String) :
    appendMsg acc e = acc ++ (". " ++ e) := by
  unfold appendMsg
  rw [if_neg h, String.append_assoc]

theorem ringStep_radius {up : Upstream} {r a : Nat} {f : RingFound}
    (h : ringStep up r a = some f) : f.radius = r := by
  unfold ringStep at h
  cases he : ringEval (up.ringResp r a) with
  | none => rw [he] at h; simp at h
  | some hit =>
    rw [he] at h
    simp only [Option.map_some'] at h
    cases h
    rfl

theorem searchAngles_eq_none {up : Upstream} {r : Nat} :
    ∀ {l : List Nat}, (searchAngles up r l).1 = none →
      ∀ a ∈ l, ringStep up r a = none := by
  intro l
  induction l with
  | nil => intro _ a ha; simp at ha
  | cons a as ih =>
    intro h b hb
    unfold searchAngles at h
    cases hstep : ringStep up r a with
    | some f => rw [hstep] at h; simp at h
    | none =>
      rw [hstep] at h
      simp only at h
      rcases List.mem_cons.mp hb with rfl | hmem
      · exact hstep
      · exact ih h b hmem

theorem searchAngles_eq_some {up : Upstream} {r : Nat} :
    ∀ {l : List Nat} {f : RingFound}, (searchAngles up r l).1 = some f →
      ∃ i, ∃ hi : i < l.length,
        ringStep up r (l.get ⟨i, hi⟩) = some f ∧
        ∀ j (hj : j < i),
          ringStep up r (l.get ⟨j, Nat.lt_trans hj hi⟩) = none := by
  intro l
  induction l with
  | nil => intro f h; simp [searchAngles] at h
  | cons a as ih =>
    intro f h
    unfold searchAngles at h
    cases hstep : ringStep up r a with
    | some g =>
      rw [hstep] at h
      simp only [Option.some_inj] at h
      cases h
      exact ⟨0, Nat.succ_pos _, hstep, fun j hj => absurd hj (Nat.not_lt_zero j)⟩
    | none =>
      rw [hstep] at h
      simp only at h
      obtain ⟨i, hi, hs, hprev⟩ := ih h
      refine ⟨i + 1, Nat.succ_lt_succ hi, hs, ?_⟩
      intro j hj
      cases j with
      | zero => exact hstep
      | succ j' => exact hprev j' (Nat.lt_of_succ_lt_succ hj)

theorem searchAngles_exists_mem {up : Upstream} {r : Nat} {l : List Nat}
    {f : RingFound} (h : (searchAngles up r l).1 = some f) :
    ∃ a ∈ l, ringStep up r a = some f := by
  obtain ⟨i, hi, hs, _⟩ := searchAngles_eq_some h
  exact ⟨l.get ⟨i, hi⟩, l.get_mem _ _, hs⟩

theorem searchAngles_radius {up : Upstream} {r : Nat} {l : List Nat}
    {f : RingFound} (h : (searchAngles up r l).1 = some f) : f.radius = r := by
  obtain ⟨_, _, hs⟩ := searchAngles_exists_mem h
  exact ringStep_radius hs

theorem searchRadii_min {up : Upstream} :
    ∀ {l : List Nat} {f : RingFound}, (searchRadii up l).1 = some f →
      l.Sorted (· ≤ ·) →
      (∃ r ∈ l, (searchAngles up r angulos).1 = some f) ∧
      ∀ r ∈ l, (∃ a ∈ angulos, (ringStep up r a).isSome = true) →
        f.radius ≤ r := by
  intro l
  induction l with
  | nil => intro f h _; simp [searchRadii] at h
  | cons r rs ih =>
    intro f h hsorted
    obtain ⟨hall, hrs⟩ := List.sorted_cons.mp hsorted
    unfold searchRadii at h
    rcases hsa : searchAngles up r angulos with ⟨o, n⟩
    rw [hsa] at h
    cases o with
    | some g =>
      simp only [Option.some_inj] at h
      cases h
      have hfst : (searchAngles up r angulos).1 = some f := by rw [hsa]
      have hrad := searchAngles_radius hfst
      refine ⟨⟨r, List.mem_cons_self r rs, hfst⟩, ?_⟩
      intro r' hr' _
      rcases List.mem_cons.mp hr' with rfl | hmem
      · rw [hrad]
      · rw [hrad]; exact hall r' hmem
    | none =>
      simp only at h
      obtain ⟨⟨r'', hr'', hfst⟩, hmin⟩ := ih h hrs
      refine ⟨⟨r'', List.mem_cons_of_mem r hr'', hfst⟩, ?_⟩
      intro r' hr' hsucc
      rcases List.mem_cons.mp hr' with rfl | hmem
      · obtain ⟨a, ha, hsome⟩ := hsucc
        have hnone : (searchAngles up r' angulos).1 = none := by rw [hsa]
        rw [searchAngles_eq_none hnone a ha] at hsome
        simp at hsome
      · exact hmin r' hmem hsucc

theorem searchAngles_probes_le (up : Upstream) (r : Nat) :
    ∀ l : List Nat, (searchAngles up r l).2 ≤ l.length := by
  intro l
  induction l with
  | nil => simp [searchAngles]
  | cons a as ih =>
    unfold searchAngles
    cases ringStep up r a with
    | some f => simp
    | none => simpa using Nat.succ_le_succ ih

theorem searchRadii_probes_le (up : Upstream) :
    ∀ l : List Nat, (searchRadii up l).2 ≤ 8 * l.length := by
  intro l
  induction l with
  | nil => simp [searchRadii]
  | cons r rs ih =>
    unfold searchRadii
    rcases hsa : searchAngles up r angulos with ⟨o, n⟩
    have hn : n ≤ 8 := by
      have h8 := searchAngles_probes_le up r angulos
      rw [hsa] at h8
      exact h8
    cases o with
    | some g =>
      simpa using Nat.le_trans hn (by simp [Nat.mul_succ])
    | none =>
      simp only [List.length_cons, Nat.mul_succ]
      omega

theorem buscar_probes_le (up : Upstream) : (buscarPorAnillos up).2 ≤ 40 := by
  have h := searchRadii_probes_le up radios
  simpa [buscarPorAnillos, radios] using h

theorem initialErrorMessage_error_of {r : Option DistResult}
    (h : (r >>= (·.lerr) >>= (·.err)) = some (.list [])) :
    initialErrorMessage r = .error typeErrorMsg := by
  unfold initialErrorMessage lerrText
  rw [h]
  rfl

theorem initialErrorMessage_ok_of {r : Option DistResult}
    (h : (r >>= (·.lerr) >>= (·.err)) ≠ some (.list [])) :
    ∃ m, initialErrorMessage r = .ok m := by
  unfold initialErrorMessage lerrText
  cases hle : (r >>= (·.lerr) >>= (·.err)) with
  | none => exact ⟨_, rfl⟩
  | some ls =>
    cases ls with
    | single e => exact ⟨_, rfl⟩
    | list l =>
      cases l with
      | nil => exact absurd hle h
      | cons e es => exact ⟨_, rfl⟩

theorem runRing_probes_le (up : Upstream) : (runRing up).2 ≤ 41 := by
  unfold runRing
  rcases h : buscarPorAnillos up with ⟨o, n⟩
  have hn : n ≤ 40 := by
    have := buscar_probes_le up
    rw [h] at this
    exact this
  cases o with
  | some f => simpa using Nat.succ_le_succ hn
  | none => simpa using Nat.le_trans hn (by omega)

theorem handlerCore_ring (up : Upstream) :
    (handlerCore up).ringInvoked = exactStageTriggersRing up := by
  unfold handlerCore exactStageTriggersRing
  cases up.exactResp with
  | thrown m => rfl
  | resp status body =>
    simp only []
    rcases hr : runRing up with ⟨o, n⟩
    cases h404 : (status == 404) with
    | true => cases o <;> rfl
    | false =>
      cases body with
      | none => rfl
      | some dj =>
        simp only []
        cases herr : (!(okStatus status) ||
            cuerrPosExact dj.Consulta_RCCOOR_DistanciaResult) with
        | true =>
          cases him : initialErrorMessage dj.Consulta_RCCOOR_DistanciaResult <;>
            rfl
        | false =>
          cases hcd : (dj.Consulta_RCCOOR_DistanciaResult >>=
              (·.coordenadas_distancias) >>= (·.coordd)) with
          | none => cases o <;> rfl
          | some cl =>
            simp only []
            cases htp : todasParcels cl with
            | nil => cases o <;> rfl
            | cons p ps => rfl

theorem handlerCore_calls (up : Upstream) : (handlerCore up).calls ≤ 42 := by
  have hrr := runRing_probes_le up
  unfold handlerCore
  cases up.exactResp with
  | thrown m => show (1 : Nat) ≤ 42; omega
  | resp status body =>
    simp only []
    rcases hr : runRing up with ⟨o, n⟩
    rw [hr] at hrr
    simp only at hrr
    cases h404 : (status == 404) with
    | true =>
      cases o with
      | some out => show 1 + n ≤ 42; omega
      | none => show 1 + n ≤ 42; omega
    | false =>
      cases body with
      | none => show (1 : Nat) ≤ 42; omega
      | some dj =>
        simp only []
        cases herr : (!(okStatus status) ||
            cuerrPosExact dj.Consulta_RCCOOR_DistanciaResult) with
        | true =>
          cases him : initialErrorMessage dj.Consulta_RCCOOR_DistanciaResult with
          | error e => show (1 : Nat) ≤ 42; omega
          | ok m => show (1 : Nat) ≤ 42; omega
        | false =>
          cases hcd : (dj.Consulta_RCCOOR_DistanciaResult >>=
              (·.coordenadas_distancias) >>= (·.coordd)) with
          | none =>
            cases o with
            | some out => show 1 + n ≤ 42; omega
            | none => show 1 + n ≤ 42; omega
          | some cl =>
            simp only []
            cases htp : todasParcels cl with
            | nil =>
              cases o with
              | some out => show 1 + n ≤ 42; omega
              | none => show 1 + n ≤ 42; omega
            | cons p ps => show (2 : Nat) ≤ 42; omega

theorem handlerCore_total (up : Upstream) :
    ((handlerCore up).resp = ApiResponse.internalError ∧
      handlerFault up = true) ∨
    ((∃ o, (handlerCore up).resp = ApiResponse.outcome o) ∧
      handlerFault up = false) := by
  unfold handlerCore handlerFault
  cases up.exactResp with
  | thrown m => exact Or.inl ⟨rfl, rfl⟩
  | resp status body =>
    simp only []
    rcases hr : runRing up with ⟨o, n⟩
    cases h404 : (status == 404) with
    | true => cases o <;> exact Or.inr ⟨⟨_, rfl⟩, rfl⟩
    | false =>
      cases body with
      | none => exact Or.inr ⟨⟨_, rfl⟩, rfl⟩
      | some dj =>
        simp only []
        cases herr : (!(okStatus status) ||
            cuerrPosExact dj.Consulta_RCCOOR_DistanciaResult) with
        | true =>
          cases hle : (dj.Consulta_RCCOOR_DistanciaResult >>= (·.lerr) >>=
              (·.err)) with
          | none =>
            obtain ⟨m, hm⟩ :=
              @initialErrorMessage_ok_of dj.Consulta_RCCOOR_DistanciaResult
                (by rw [hle]; simp)
            rw [hm]
            exact Or.inr ⟨⟨_, rfl⟩, rfl⟩
          | some ls =>
            cases ls with
            | single e =>
              obtain ⟨m, hm⟩ :=
                @initialErrorMessage_ok_of
                  dj.Consulta_RCCOOR_DistanciaResult (by rw [hle]; simp)
              rw [hm]
              exact Or.inr ⟨⟨_, rfl⟩, rfl⟩
            | list l =>
              cases l with
              | nil =>
                rw [initialErrorMessage_error_of hle]
                exact Or.inl ⟨rfl, rfl⟩
              | cons e es =>
                obtain ⟨m, hm⟩ :=
                  @initialErrorMessage_ok_of
                    dj.Consulta_RCCOOR_DistanciaResult
                    (by rw [hle]; simp)
                rw [hm]
                exact Or.inr ⟨⟨_, rfl⟩, rfl⟩
        | false =>
          cases hcd : (dj.Consulta_RCCOOR_DistanciaResult >>=
              (·.coordenadas_distancias) >>= (·.coordd)) with
          | none => cases o <;> exact Or.inr ⟨⟨_, rfl⟩, rfl⟩
          | some cl =>
            simp only []
            cases htp : todasParcels cl with
            | nil => cases o <;> exact Or.inr ⟨⟨_, rfl⟩, rfl⟩
            | cons p ps => exact Or.inr ⟨⟨_, rfl⟩, rfl⟩
theorem validPost_handler {req : Request} (up : Upstream)
    (h : validPost req = true) : handler req up = handlerCore up := by
  unfold validPost at h
  rw [Bool.and_eq_true] at h
  obtain ⟨hm, hb⟩ := h
  have hm2 : req.method = "POST" := by simpa using hm
  unfold handler
  rw [hm2]
  simp [hb]

theorem okStatus_ne_404 {s : Nat} (h : okStatus s = true) :
    (s == 404) = false := by
  unfold okStatus at h
  simp only [Bool.and_eq_true, decide_eq_true_eq] at h
  exact beq_eq_false_iff_ne.mpr (by omega)

theorem detailErrorMessage_ok_ne {p : DetResult} {rc em : String}
    (h : detailErrorMessage p rc = .ok em) : em ≠ "" := by
  unfold detailErrorMessage at h
  cases hl : lerrText (p.lerr >>= (·.err))
      ("Error al obtener detalles de la finca desde Catastro.")
      (numOrDefault (p.control >>= (·.cuerr)) ("N/A")) with
  | error e => rw [hl] at h; simp at h
  | ok mc =>
    rw [hl] at h
    simp only [Except.ok.injEq] at h
    subst h
    exact append_ne_of_left (append_ne_of_left (append_ne_of_left
      (append_ne_of_left (append_ne_of_left (append_ne_of_left
        (by decide) _) _) _) _) _) _

theorem extractFinish_fst (v : ExtractVars) (acc : String) :
    (extractFinish v acc).1 =
      if anyTruthy v then some (varsToDatos v) else none := by
  unfold extractFinish
  cases anyTruthy v <;> simp

theorem extractFinish_trim_ne {v : ExtractVars} {acc : String}
    (h : (extractFinish v acc).1 = none) :
    jsTrim ((extractFinish v acc).2) ≠ "" := by
  unfold extractFinish at h ⊢
  cases ha : anyTruthy v with
  | true => simp [ha] at h
  | false =>
    simp only [ha, Bool.false_eq_true, if_false]
    exact jsTrim_appendMsg_ne _ (by decide)

theorem extractInline_some_fst (b : Bien) (ldt : Option String)
    (acc : String) :
    (extractInline (some b) ldt acc).1 = dispatchDetail b ldt := by
  unfold extractInline dispatchDetail richWhole flatWhole
  cases hr : richCond b with
  | true => simp [hr, extractFinish_fst]
  | false =>
    cases hf : flatCond b with
    | true => simp [hr, hf, extractFinish_fst]
    | false => simp [hr, hf, extractFinish_fst, anyTruthy, emptyVars, jsTruthy]

theorem extractInline_trim_ne {bo : Option Bien} {ldt : Option String}
    {acc : String} (h : (extractInline bo ldt acc).1 = none) :
    jsTrim ((extractInline bo ldt acc).2) ≠ "" := by
  unfold extractInline at h ⊢
  cases bo with
  | none => exact jsTrim_appendMsg_ne _ (by decide)
  | some b =>
    cases hr : richCond b with
    | true =>
      simp only [hr, if_true] at h ⊢
      exact extractFinish_trim_ne h
    | false =>
      simp only [hr, Bool.false_eq_true, if_false] at h ⊢
      cases hf : flatCond b with
      | true =>
        simp only [hf, if_true] at h ⊢
        exact extractFinish_trim_ne h
      | false =>
        simp only [hf, Bool.false_eq_true, if_false] at h ⊢
        exact extractFinish_trim_ne h

/-- C1 (amended): for every valid input, `buscarPorAnillos` is invoked
exactly when the exact-point stage ends in a 404, a missing `coordd`
container, or a candidate list empty after filtering; on an upstream
functional error or a transport/parse failure the handler responds
directly without ring search. -/
theorem c1_ring_invocation (req : Request) (up : Upstream)
    (h : validPost req = true) :
    (handler req up).ringInvoked = exactStageTriggersRing up := by
  rw [validPost_handler up h]
  exact handlerCore_ring up

/-- C1 counterexample: an exact-point answer reporting upstream
functional error code 5 (an outcome other than a found candidate) makes
the handler respond directly with a null-reference outcome, and the ring
search is not invoked — refuting the claim that every non-found exact
outcome invokes `buscarPorAnillos`. -/
theorem c1_counterexample :
    cuerrPosExact
      ((⟨some ⟨some ⟨some 5⟩, none, none⟩⟩ :
        DistPayload).Consulta_RCCOOR_DistanciaResult) = true ∧
    upC1.exactResp =
      Fetched.resp 200 (some ⟨some ⟨some ⟨some 5⟩, none, none⟩⟩) ∧
    (handler reqW upC1).ringInvoked = false ∧
    (handler reqW upC1).resp = ApiResponse.outcome (nullOutcome
      ("Error al consultar parcelas cercanas (inicial): Error en servicio de distancia del Catastro. (Código: 5)")) := by
  decide

/-- C1 witness: the amended invocation rule evaluated at the concrete
error-reporting oracle. -/
theorem c1_witness :
    validPost reqW = true ∧
    (handler reqW upC1).ringInvoked = exactStageTriggersRing upC1 :=
  ⟨by decide, c1_ring_invocation reqW upC1 (by decide)⟩

/-- C2: for every request passing input validation the handler returns
exactly one response; it is a populated status-200 outcome on every path
except exactly the internal-fault conditions (a rejected exact-point
fetch, or the TypeError of an empty upstream error array), which produce
the hard 500 failure. -/
theorem c2_resolve_total (req : Request) (up : Upstream)
    (h : validPost req = true) :
    ((handler req up).resp = ApiResponse.internalError ↔
      handlerFault up = true) ∧
    (handlerFault up = false →
      ∃ o, (handler req up).resp = ApiResponse.outcome o) := by
  rw [validPost_handler up h]
  rcases handlerCore_total up with ⟨h1, h2⟩ | ⟨⟨o, ho⟩, h2⟩
  · refine ⟨⟨fun _ => h2, fun _ => h1⟩, ?_⟩
    intro hf
    rw [h2] at hf
    simp at hf
  · refine ⟨⟨?_, ?_⟩, fun _ => ⟨o, ho⟩⟩
    · intro hresp
      rw [ho] at hresp
      exact absurd hresp (by simp)
    · intro hf
      rw [h2] at hf
      simp at hf

/-- C2 witness: totality evaluated at a concrete found-parcel oracle. -/
theorem c2_witness :
    validPost reqW = true ∧
    (((handler reqW upFound).resp = ApiResponse.internalError ↔
        handlerFault upFound = true) ∧
     (handlerFault upFound = false →
        ∃ o, (handler reqW upFound).resp = ApiResponse.outcome o)) :=
  ⟨by decide, c2_resolve_total reqW upFound (by decide)⟩

/-- C3: when the ring search reports a hit, the hit was produced by a
probe at the reported radius, and that radius is minimal: every radius of
the schedule at which any probe succeeds is at least the reported one
(radii are scanned in ascending order and the search stops at the first
succeeding probe). -/
theorem c3_ring_minimal_radius (up : Upstream) (f : RingFound)
    (h : (buscarPorAnillos up).1 = some f) :
    (∃ a ∈ angulos, ringStep up f.radius a = some f) ∧
    ∀ r ∈ radios, (∃ a ∈ angulos, (ringStep up r a).isSome = true) →
      f.radius ≤ r := by
  unfold buscarPorAnillos at h
  have hs : radios.Sorted (· ≤ ·) := by decide
  obtain ⟨⟨r, hr, hsa⟩, hmin⟩ := searchRadii_min h hs
  have hrad := searchAngles_radius hsa
  refine ⟨?_, hmin⟩
  obtain ⟨a, ha, hstep⟩ := searchAngles_exists_mem hsa
  rw [hrad]
  exact ⟨a, ha, hstep⟩

/-- C3 witness: with probes failing at radii 5 and 10 and succeeding at
radius 25 for two different angles, the reported radius is 25. -/
theorem c3_witness :
    (buscarPorAnillos upRing).1 = some ringFoundW ∧
    ((∃ a ∈ angulos, ringStep upRing ringFoundW.radius a = some ringFoundW) ∧
     ∀ r ∈ radios, (∃ a ∈ angulos, (ringStep upRing r a).isSome = true) →
       ringFoundW.radius ≤ r) :=
  ⟨by decide, c3_ring_minimal_radius upRing ringFoundW (by decide)⟩

/-- C4: for every request and upstream behaviour the handler issues at
most 42 upstream calls (1 exact + at most 40 ring probes + at most 1
detail query); a probe that misses (including transport or upstream
errors) consumes its slot and the scan continues with the next probe. -/
theorem c4_call_budget :
    (∀ (req : Request) (up : Upstream), (handler req up).calls ≤ 42) ∧
    (∀ (up : Upstream) (r a : Nat) (as : List Nat),
      ringStep up r a = none →
      (searchAngles up r (a :: as)).1 = (searchAngles up r as).1 ∧
      (searchAngles up r (a :: as)).2 = (searchAngles up r as).2 + 1) := by
  constructor
  · intro req up
    unfold handler
    split
    · show (0 : Nat) ≤ 42; omega
    · split
      · show (0 : Nat) ≤ 42; omega
      · exact handlerCore_calls up
  · intro up r a as h
    constructor <;> simp only [searchAngles, h]

/-- C4 witness: the budget evaluated on the concrete ring oracle, and a
missing probe consuming its slot. -/
theorem c4_witness :
    (handler reqW upRing).calls ≤ 42 ∧
    ringStep upRing 5 0 = none ∧
    ((searchAngles upRing 5 (0 :: [2])).1 = (searchAngles upRing 5 [2]).1 ∧
     (searchAngles upRing 5 (0 :: [2])).2 =
       (searchAngles upRing 5 [2]).2 + 1) :=
  ⟨c4_call_budget.1 reqW upRing, by decide,
   c4_call_budget.2 upRing 5 0 [2] (by decide)⟩

/-- C6: a detail-stage failure (thrown fetch, non-JSON body, or upstream
error code) never discards the resolved reference: the outcome keeps the
reference, the location label, the distance, a null detail, and a
non-null message extending any earlier stage message. -/
theorem c6_detail_failure_keeps_reference (up : Upstream) (refCat : String)
    (ldt : Option String) (dist : Option JsNum) (ctx : Option String)
    (h : detailFailure up refCat = true) :
    (fetchParcelDetailsAndRespond up refCat ldt dist ctx).referenciaOriginal
        = some refCat ∧
    (fetchParcelDetailsAndRespond up refCat ldt dist ctx).direccionOriginalLDT
        = ldt ∧
    (fetchParcelDetailsAndRespond up refCat ldt dist ctx).distancia = dist ∧
    (fetchParcelDetailsAndRespond up refCat ldt dist ctx).datosDetallados
        = none ∧
    ∃ m, (fetchParcelDetailsAndRespond up refCat ldt dist ctx).message
        = some m ∧ m ≠ "" ∧
      ∀ c, ctx = some c → c ≠ "" → ∃ t, m = c ++ t := by
  unfold detailFailure at h
  unfold fetchParcelDetailsAndRespond
  cases hdr : up.detailResp refCat with
  | thrown emsg =>
    refine ⟨rfl, rfl, rfl, rfl, ?_⟩
    refine ⟨_, rfl, ?_, ?_⟩
    · unfold criticoMsg
      exact appendMsg_ne _ (append_ne_of_left (append_ne_of_left
        (append_ne_of_left (by decide) _) _) _)
    · intro c hc hcne
      unfold criticoMsg
      rw [hc]
      simp only [Option.getD_some]
      rw [appendMsg_of_truthy hcne]
      exact ⟨_, rfl⟩
  | resp st ob =>
    cases ob with
    | none =>
      refine ⟨rfl, rfl, rfl, rfl, ?_⟩
      refine ⟨_, rfl, ?_, ?_⟩
      · exact appendMsg_ne _ (by decide)
      · intro c hc hcne
        rw [hc]
        simp only [Option.getD_some]
        rw [appendMsg_of_truthy hcne]
        exact ⟨_, rfl⟩
    | some dj =>
      simp only []
      rw [hdr] at h
      simp only [] at h
      cases hsel : selectDetPayload dj with
      | none => rw [hsel] at h; simp at h
      | some payload =>
        rw [hsel] at h
        simp only [] at h
        unfold detailBody
        rw [hsel]
        simp only []
        rw [if_pos h]
        cases hdm : detailErrorMessage payload refCat with
        | error e =>
          refine ⟨rfl, rfl, rfl, rfl, ?_⟩
          refine ⟨_, rfl, ?_, ?_⟩
          · unfold criticoMsg
            exact appendMsg_ne _ (append_ne_of_left (append_ne_of_left
              (append_ne_of_left (by decide) _) _) _)
          · intro c hc hcne
            unfold criticoMsg
            rw [hc]
            simp only [Option.getD_some]
            rw [appendMsg_of_truthy hcne]
            exact ⟨_, rfl⟩
        | ok em =>
          refine ⟨rfl, rfl, rfl, rfl, ?_⟩
          refine ⟨_, rfl, ?_, ?_⟩
          · exact appendMsg_ne _ (detailErrorMessage_ok_ne hdm)
          · intro c hc hcne
            rw [hc]
            simp only [Option.getD_some]
            rw [appendMsg_of_truthy hcne]
            exact ⟨_, rfl⟩

/-- C6 witness: a detail answer reporting error 13 keeps the reference
and produces a message extending the stage context. -/
theorem c6_witness :
    detailFailure upDetErr ("REF123") = true ∧
    ((fetchParcelDetailsAndRespond upDetErr ("REF123") (some ("LBL"))
        (some ⟨"7"⟩) (some ("previo"))).referenciaOriginal = some ("REF123") ∧
     (fetchParcelDetailsAndRespond upDetErr ("REF123") (some ("LBL"))
        (some ⟨"7"⟩) (some ("previo"))).direccionOriginalLDT = some ("LBL") ∧
     (fetchParcelDetailsAndRespond upDetErr ("REF123") (some ("LBL"))
        (some ⟨"7"⟩) (some ("previo"))).distancia = some ⟨"7"⟩ ∧
     (fetchParcelDetailsAndRespond upDetErr ("REF123") (some ("LBL"))
        (some ⟨"7"⟩) (some ("previo"))).datosDetallados = none ∧
     ∃ m, (fetchParcelDetailsAndRespond upDetErr ("REF123") (some ("LBL"))
        (some ⟨"7"⟩) (some ("previo"))).message = some m ∧ m ≠ "" ∧
       ∀ c, (some ("previo") : Option String) = some c → c ≠ "" →
         ∃ t, m = c ++ t) :=
  ⟨by decide, c6_detail_failure_keeps_reference upDetErr ("REF123")
    (some ("LBL")) (some ⟨"7"⟩) (some ("previo")) (by decide)⟩

/-- C7: when the exact-point answer contains at least one candidate with
both reference components, the ring search is never invoked, exactly two
upstream calls are made, and the first valid candidate in upstream order
goes directly to the detail stage. -/
theorem c7_exact_hit_no_ring (req : Request) (up : Upstream)
    (status : Nat) (dj : DistPayload) (coorddList : ListOrSingle CoorddItem)
    (p : CatastroParcel) (ps : List CatastroParcel)
    (hreq : validPost req = true)
    (hresp : up.exactResp = Fetched.resp status (some dj))
    (hok : okStatus status = true)
    (hcuerr : cuerrPosExact dj.Consulta_RCCOOR_DistanciaResult = false)
    (hcoordd : (dj.Consulta_RCCOOR_DistanciaResult >>=
        (·.coordenadas_distancias) >>= (·.coordd)) = some coorddList)
    (htp : todasParcels coorddList = p :: ps) :
    (handler req up).ringInvoked = false ∧
    (handler req up).calls = 2 ∧
    (handler req up).resp = ApiResponse.outcome
      (fetchParcelDetailsAndRespond up (refCatOf p) p.ldt (jsNumOpt p.dis)
        (some msgInicialCtx)) := by
  rw [validPost_handler up hreq]
  unfold handlerCore
  rw [hresp]
  simp only []
  rw [okStatus_ne_404 hok, hok, hcuerr]
  simp only [Bool.not_true, Bool.or_self, Bool.false_eq_true, if_false]
  rw [hcoordd]
  simp only []
  rw [htp]
  exact ⟨rfl, rfl, rfl⟩

/-- C7 witness: the found-parcel oracle skips the ring search and sends
the first candidate to the detail stage. -/
theorem c7_witness :
    validPost reqW = true ∧
    ((handler reqW upFound).ringInvoked = false ∧
     (handler reqW upFound).calls = 2 ∧
     (handler reqW upFound).resp = ApiResponse.outcome
       (fetchParcelDetailsAndRespond upFound (refCatOf parcelA) parcelA.ldt
         (jsNumOpt parcelA.dis) (some msgInicialCtx))) :=
  ⟨by decide, c7_exact_hit_no_ring reqW upFound 200 foundDistPayload
    (.single ⟨some (.single parcelA)⟩) parcelA [] (by decide) rfl
    (by decide) (by decide) (by decide) (by decide)⟩

/-- C10: the probe angles are, in units of pi/4, the cardinal directions
0, 2, 4, 6 (that is 0, PI/2, PI, 3*PI/2) followed by the diagonals 1, 3,
5, 7 — not ascending order — and the reported hit comes from the
earliest angle in this order among the succeeding probes of its radius:
every earlier angle at that radius missed. -/
theorem c10_angle_priority (up : Upstream) (f : RingFound) :
    angulos = [0, 2, 4, 6, 1, 3, 5, 7] ∧
    ((buscarPorAnillos up).1 = some f →
      ∃ i, ∃ hi : i < angulos.length,
        ringStep up f.radius (angulos.get ⟨i, hi⟩) = some f ∧
        ∀ j (hj : j < i),
          ringStep up f.radius (angulos.get ⟨j, Nat.lt_trans hj hi⟩)
            = none) := by
  refine ⟨rfl, fun h => ?_⟩
  unfold buscarPorAnillos at h
  obtain ⟨⟨r, hr, hsa⟩, _⟩ := searchRadii_min h (by decide)
  have hrad := searchAngles_radius hsa
  obtain ⟨i, hi, hstep, hprev⟩ := searchAngles_eq_some hsa
  rw [hrad]
  exact ⟨i, hi, hstep, hprev⟩

/-- C10 witness: with radius-25 hits at the angles pi (scan position 2)
and pi/4 (scan position 4), the reported candidate comes from pi, and
the probes at positions 0 and 1 missed. -/
theorem c10_witness :
    (buscarPorAnillos upRing).1 = some ringFoundW ∧
    (∃ i, ∃ hi : i < angulos.length,
      ringStep upRing ringFoundW.radius (angulos.get ⟨i, hi⟩)
        = some ringFoundW ∧
      ∀ j (hj : j < i),
        ringStep upRing ringFoundW.radius
          (angulos.get ⟨j, Nat.lt_trans hj hi⟩) = none) :=
  ⟨by decide, (c10_angle_priority upRing ringFoundW).2 (by decide)⟩

/-- C5 (amended): the detail shape is selected by structural markers —
rich when `debi` and `dt.locs` are present, else flat when `dtcat` or
`dirmun` is present — and the selected shape's whole extraction (kept
only when at least one field is truthy) determines the ParcelDetail with
no field-by-field mixing; when no marker matches or the selected shape
yields nothing, the outcome still carries the resolved reference with a
null detail and a non-empty diagnostic, not an error. -/
theorem c5_shape_dispatch (up : Upstream) (refCat : String)
    (ldt : Option String) (dist : Option JsNum) (ctx : Option String)
    (s : Nat) (dj : DetJson) (payload : DetResult)
    (h1 : up.detailResp refCat = Fetched.resp s (some dj))
    (h2 : selectDetPayload dj = some payload)
    (h3 : cuerrDetailErr payload = false) :
    (fetchParcelDetailsAndRespond up refCat ldt dist ctx).referenciaOriginal
        = some refCat ∧
    (fetchParcelDetailsAndRespond up refCat ldt dist ctx).datosDetallados
        = ((pickBien payload).bind fun b => dispatchDetail b ldt) ∧
    (((pickBien payload).bind fun b => dispatchDetail b ldt) = none →
      ∃ m, (fetchParcelDetailsAndRespond up refCat ldt dist ctx).message
          = some m ∧ m ≠ "") := by
  unfold fetchParcelDetailsAndRespond
  rw [h1]
  simp only []
  unfold detailBody
  rw [h2]
  simp only []
  rw [h3]
  simp only [Bool.false_eq_true, if_false]
  cases hpb : pickBien payload with
  | none =>
    refine ⟨by trivial, by rfl, ?_⟩
    intro _
    have hne := @extractInline_trim_ne none ldt (ctx.getD "") rfl
    have hb : (jsTrim ((extractInline (none : Option Bien) ldt
        (ctx.getD "")).2) != "") = true := bne_iff_ne.mpr hne
    refine ⟨_, ?_, hne⟩
    rw [if_pos hb]
  | some b =>
    have hfst := extractInline_some_fst b ldt (ctx.getD "")
    refine ⟨by trivial, ?_, ?_⟩
    · rw [hfst]
      rfl
    · intro hnone
      have hd : dispatchDetail b ldt = none := by simpa using hnone
      have h1f : (extractInline (some b) ldt (ctx.getD "")).1 = none := by
        rw [hfst, hd]
      have hne := extractInline_trim_ne h1f
      have hb : (jsTrim ((extractInline (some b) ldt
          (ctx.getD "")).2) != "") = true := bne_iff_ne.mpr hne
      refine ⟨_, ?_, hne⟩
      rw [if_pos hb]

/-- C5 counterexample: a building record carrying the rich markers with
no extractable rich field, plus a flat `dtcat.ant` the flat shape would
yield, produces a null detail — while the claimed first-yielding-shape
rule produces a detail from the flat shape.  The shape choice is by
structural marker, not by yield. -/
theorem c5_counterexample :
    pickBien payloadC5 = some bienC5 ∧
    richCond bienC5 = true ∧
    (fetchParcelDetailsAndRespond upC5 ("RC5") none none none).datosDetallados
        = none ∧
    specFirstYieldingShapeDetail bienC5 none =
      some ⟨none, none, none, some ("1990"), none⟩ := by
  decide

/-- C5 witness: the amended dispatch rule evaluated at the concrete
marker-mismatch oracle. -/
theorem c5_witness :
    upC5.detailResp ("RC5") = Fetched.resp 200 (some detJsonC5) ∧
    selectDetPayload detJsonC5 = some payloadC5 ∧
    cuerrDetailErr payloadC5 = false ∧
    ((fetchParcelDetailsAndRespond upC5 ("RC5") none none
        none).referenciaOriginal = some ("RC5") ∧
     (fetchParcelDetailsAndRespond upC5 ("RC5") none none
        none).datosDetallados =
       ((pickBien payloadC5).bind fun b => dispatchDetail b none) ∧
     (((pickBien payloadC5).bind fun b => dispatchDetail b none) = none →
       ∃ m, (fetchParcelDetailsAndRespond upC5 ("RC5") none none
           none).message = some m ∧ m ≠ "")) :=
  ⟨rfl, by decide, by decide,
   c5_shape_dispatch upC5 ("RC5") none none none 200 detJsonC5 payloadC5
     rfl (by decide) (by decide)⟩

/-- C8: the exact stage's candidate list is exactly the raw flattened
upstream list filtered by the presence of both reference components; a
valid record's reference is the exact concatenation of `pc1` and `pc2`
with no separator; the ring stage reports the head parcel's
concatenation only when both components are truthy and otherwise skips
the probe, never yielding a reference. -/
theorem c8_reference_concatenation :
    (∀ c, todasParcels c = (rawParcels c).filter parcelValid) ∧
    (∀ p : CatastroParcel, parcelValid p = true ↔
      ∃ s1 s2, p.pc = some ⟨some s1, some s2⟩ ∧ s1 ≠ "" ∧ s2 ≠ "") ∧
    (∀ (p : CatastroParcel) (s1 s2 : String),
      p.pc = some ⟨some s1, some s2⟩ → refCatOf p = s1 ++ s2) ∧
    (∀ (f0 : Fetched DistPayload) (hit : RingHit), ringEval f0 = some hit →
      ∃ t, ringHeadParcel f0 = some t ∧ parcelValid t = true ∧
        hit.refCat = refCatOf t) ∧
    (∀ (f0 : Fetched DistPayload) (t : CatastroParcel),
      ringHeadParcel f0 = some t → parcelValid t = false →
        ringEval f0 = none) := by
  refine ⟨?_, ?_, ?_, ?_, ?_⟩
  · intro c
    unfold todasParcels rawParcels
    rw [List.filter_flatMap]
    have hfun : (fun item : CoorddItem =>
        (match item.lpcd with
          | some l => l.asList
          | none => ([] : List CatastroParcel)).filter parcelValid) =
        (fun item : CoorddItem =>
          match item.lpcd with
          | some l => l.asList.filter parcelValid
          | none => ([] : List CatastroParcel)) := by
      funext item
      rcases item with ⟨lpcd⟩
      cases lpcd <;> rfl
    rw [← hfun]
  · intro p
    constructor
    · intro h
      unfold parcelValid at h
      cases hpc : p.pc with
      | none => rw [hpc] at h; simp at h
      | some pcv =>
        rw [hpc] at h
        rcases pcv with ⟨o1, o2⟩
        cases o1 with
        | none => simp [jsTruthy] at h
        | some s1 =>
          cases o2 with
          | none => simp [jsTruthy] at h
          | some s2 =>
            simp only [jsTruthy, Bool.and_eq_true, bne_iff_ne, ne_eq] at h
            exact ⟨s1, s2, rfl, h.1, h.2⟩
    · rintro ⟨s1, s2, hpc, hs1, hs2⟩
      unfold parcelValid
      rw [hpc]
      simp [jsTruthy, hs1, hs2]
  · intro p s1 s2 h
    unfold refCatOf
    rw [h]
    rfl
  · intro f0 hit h
    unfold ringEval at h
    cases hh : ringHeadParcel f0 with
    | none => rw [hh] at h; simp at h
    | some t =>
      rw [hh] at h
      simp only [] at h
      cases hv : parcelValid t with
      | true =>
        rw [hv] at h
        simp only [if_true, Option.some_inj] at h
        refine ⟨t, rfl, hv, ?_⟩
        rw [← h]
      | false =>
        rw [hv] at h
        simp at h
  · intro f0 t h1 h2
    unfold ringEval
    rw [h1]
    simp only []
    rw [h2]
    simp

/-- C8 witness: the filter, concatenation and ring-skip facts evaluated
at a concrete candidate record. -/
theorem c8_witness :
    refCatOf parcelA = "1234567" ++ "AB1234" ∧
    parcelValid parcelA = true ∧
    todasParcels (.single ⟨some (.single parcelA)⟩) =
      (rawParcels (.single ⟨some (.single parcelA)⟩)).filter parcelValid :=
  ⟨c8_reference_concatenation.2.2.1 parcelA ("1234567") ("AB1234") rfl,
   (c8_reference_concatenation.2.1 parcelA).mpr
     ⟨"1234567", "AB1234", rfl, by decide, by decide⟩,
   c8_reference_concatenation.1 _⟩

/-- C9: at each list-or-singleton position (the `coordd` container in
both stages, the `lpcd` parcel list in both stages, the `lerr.err` error
list) a single object and the one-element list containing it produce the
same extraction; a missing intermediate key produces a not-found result
(`none`, an empty list, or the default error text), never an exception. -/
theorem c9_normalizer_equivalences :
    (∀ x : CoorddItem, todasParcels (.single x) = todasParcels (.list [x])) ∧
    (∀ pl : CatastroParcel,
      todasParcels (.single ⟨some (.single pl)⟩) =
        todasParcels (.single ⟨some (.list [pl])⟩)) ∧
    (∀ (st : Nat) (ctl : Option CtlBlock) (le : Option Lerr) (c : CoorddItem),
      ringEval (.resp st (some ⟨some ⟨ctl, some ⟨some (.single c)⟩, le⟩⟩)) =
        ringEval (.resp st (some ⟨some ⟨ctl, some ⟨some (.list [c])⟩, le⟩⟩))) ∧
    (∀ (st : Nat) (ctl : Option CtlBlock) (le : Option Lerr)
        (pl : CatastroParcel),
      ringEval (.resp st (some ⟨some ⟨ctl,
          some ⟨some (.single ⟨some (.single pl)⟩)⟩, le⟩⟩)) =
        ringEval (.resp st (some ⟨some ⟨ctl,
          some ⟨some (.single ⟨some (.list [pl])⟩)⟩, le⟩⟩))) ∧
    (∀ (m0 c0 : String) (e : ErrDetail),
      lerrText (some (.single e)) m0 c0 = lerrText (some (.list [e])) m0 c0) ∧
    (∀ m0 c0 : String, lerrText none m0 c0 = .ok (m0, c0)) ∧
    (∀ (st : Nat) (ctl : Option CtlBlock) (le : Option Lerr),
      ringEval (.resp st (some ⟨some ⟨ctl, none, le⟩⟩)) = none) ∧
    todasParcels (.single ⟨none⟩) = [] := by
  refine ⟨fun x => rfl, fun pl => rfl, fun st ctl le c => rfl,
    fun st ctl le pl => rfl, fun m0 c0 e => rfl, fun m0 c0 => rfl,
    ?_, rfl⟩
  intro st ctl le
  unfold ringEval ringHeadParcel
  simp only []
  cases h1 : (st == 404) with
  | true => rfl
  | false =>
    cases h2 : okStatus st with
    | false => rfl
    | true =>
      cases h3 : ((ctl >>= (·.cuerr)) == some 0) with
      | true => rfl
      | false => rfl

end CatastroProxy
